import Mathlib

/-!
Shallow embedding of `detector.py` (the Detekt live-memory triage pipeline):
the `scan` orchestrator (signature-file resolution, match filtering,
rule deduplication, evidence rendering, result emission) and the top-level
`main` orchestrator (profile resolution, driver lookup, winpmem service
lifecycle, scan invocation, best-effort teardown).

External collaborators (volatility, the `Config`/`Service`/`messages`
modules, the yara engine) are modelled as an environment of oracles:
booleans for existence/success checks, and an explicit event stream for
`yara.calculate()`.  Output channels (`queue_results`, `queue_errors`) are
modelled as lists accumulated by the run; `log` records relevant to the
verified properties (the per-match warning, the teardown error) are
tracked explicitly.  Exceptions (`DetectorError`) are modelled with
`Except`.
-/

namespace Detekt

/-- The process-context object a match may carry (`o` in
`yara.calculate()` tuples): its structure name (`o.obj_name`), the
subject pid (`o.UniqueProcessId`) and ppid (`o.InheritedFromUniqueProcessId`). -/
structure ObjRec where
  obj_name : String
  uniqueProcessId : Int
  inheritedFromUniqueProcessId : Int
deriving DecidableEq

/-- A yara hit: the matched rule name (`hit.rule`) and the optional
`detection` / `description` metadata (`hit.meta.get(...)`, `none` when the
key is absent). -/
structure Hit where
  rule : String
  metaDetection : Option String
  metaDescription : Option String
deriving DecidableEq

/-- One event of the lazy `yara.calculate()` sequence: either a yielded
match tuple `(o, address, hit, value)`, or the iteration raising a
`DetectorError` at that point (which also models a failure while building
the address space, as a `fail` placed before any yielded tuple). -/
inductive StreamEvent where
  | item (o : Option ObjRec) (address : Nat) (hit : Hit) (value : List Nat)
  | fail (msg : String)
deriving DecidableEq

/-- The exception type raised by the pipeline's own steps
(`abstracts.DetectorError`). -/
structure DetectorError where
  msg : String
deriving DecidableEq

/-- The dict put on `queue_results` by `scan`: exactly the keys
`rule`, `detection`, `description`, `pid`, `ppid` built at
`queue_results.put(dict(...))`. -/
structure ResultMsg where
  rule : String
  detection : Option String
  description : Option String
  pid : Int
  ppid : Int
deriving DecidableEq

/-- The warning-level log record written by `scan` for each reported
match: rule, pid, ppid, match address, and the rendered hexdump of the
matched bytes (`rule_data`). -/
structure WarnLog where
  rule : String
  pid : Int
  ppid : Int
  address : Nat
  ruleData : String
deriving DecidableEq

/-- Lower-case hex digit of `n < 16`. -/
def hexDigitChar (n : Nat) : Char :=
  if n < 10 then Char.ofNat (48 + n) else Char.ofNat (87 + n)

/-- Two-digit lower-case hex rendering of one byte. -/
def hexByteStr (b : Nat) : String :=
  String.mk [hexDigitChar (b / 16 % 16), hexDigitChar (b % 16)]

/-- Printable rendering of one byte: the character itself when printable,
a dot otherwise. -/
def translatedChar (b : Nat) : Char :=
  if 32 < b ∧ b < 127 then Char.ofNat b else '.'

/-- Modelled from the spec: volatility's `utils.Hexdump` is not part of
this repository; per the spec the evidence window is "rendered as paired
hex-byte / printable-character lines".  Each 16-byte row of `value`
becomes one line of space-separated hex bytes followed by the printable
translation, as assembled by
`rule_data += '{0} {1}\n'.format(hexdata, ''.join(translated_data))`. -/
def renderRuleData (value : List Nat) : String :=
  ((value.toChunks 16).map (fun row =>
    String.intercalate " " (row.map hexByteStr) ++ " "
      ++ String.mk (row.map translatedChar) ++ "\n")).foldl (fun a b => a ++ b) ""

/-- Environment of the `scan` function: whether `<cwd>/signatures.yar`
exists, whether the packaged `rules/signatures.yar` resource exists,
the scanning process's own pid (`os.getpid()`), and the match stream
produced by `yara.calculate()` over the acquired image. -/
structure ScanEnv where
  sigCwd : Bool
  sigResource : Bool
  selfPid : Int
  stream : List StreamEvent
deriving DecidableEq

/-- Which of the two resolution paths the signature file was found at. -/
inductive YaraPath where
  | cwdPath
  | resourcePath
deriving DecidableEq

/-- Signature-file resolution at the top of `scan`: `<cwd>/signatures.yar`
first, then the packaged resource `rules/signatures.yar`, else none. -/
def resolveYara (e : ScanEnv) : Option YaraPath :=
  if e.sigCwd then some YaraPath.cwdPath
  else if e.sigResource then some YaraPath.resourcePath
  else none

/-- The `for o, address, hit, value in yara.calculate()` loop of `scan`,
carrying the `matched` dedup list.  Returns the results put on
`queue_results`, the warning log records, and either the final
`len(matched) > 0` verdict or the `DetectorError` that interrupted the
iteration. -/
def scanLoop (selfPid : Int) :
    List StreamEvent → List String →
    List ResultMsg × List WarnLog × Except DetectorError Bool
  | [], matched => ([], [], Except.ok (decide (matched.length > 0)))
  | StreamEvent.fail m :: _, _ => ([], [], Except.error ⟨m⟩)
  | StreamEvent.item o address hit value :: rest, matched =>
    match o with
    | none => scanLoop selfPid rest matched
    | some ob =>
      if ob.obj_name = "_EPROCESS" then
        if ob.uniqueProcessId = selfPid then
          -- PID of the current process: false positive, skip.
          scanLoop selfPid rest matched
        else if hit.rule ∈ matched then
          -- Rule already reported in this run, skip.
          scanLoop selfPid rest matched
        else
          let msg : ResultMsg :=
            ⟨hit.rule, hit.metaDetection, hit.metaDescription,
             ob.uniqueProcessId, ob.inheritedFromUniqueProcessId⟩
          let lg : WarnLog :=
            ⟨hit.rule, ob.uniqueProcessId, ob.inheritedFromUniqueProcessId,
             address, renderRuleData value⟩
          let r := scanLoop selfPid rest (matched ++ [hit.rule])
          (msg :: r.1, lg :: r.2.1, r.2.2)
      -- TODO branch of the source: non-process (kernel-space) hits are skipped.
      else scanLoop selfPid rest matched

/-- The `scan` function: resolve the signature file (raising
`DetectorError` when neither path exists), then run the match loop over
the stream.  Returns the emitted results, the warning logs, and the
outcome or interrupting error. -/
def scan (e : ScanEnv) : List ResultMsg × List WarnLog × Except DetectorError Bool :=
  match resolveYara e with
  | none => ([], [], Except.error ⟨"Unable to find a valid Yara signatures file!"⟩)
  | some _ => scanLoop e.selfPid e.stream []

/-- The fixed error-channel messages of the `messages` module, as posted
by `main` via `queue_errors.put(...)`. -/
inductive Msg where
  | UNSUPPORTED_WINDOWS
  | NO_DRIVER
  | SERVICE_NO_START
  | SCAN_FAILED
deriving DecidableEq

/-- Environment of `main`: the outcomes of the external collaborators.
`profile` is `cfg.profile` after `cfg.get_profile_name()` (`none` models a
falsy profile); `driverFound` is the truthiness of `cfg.get_driver_path()`;
`createOk`/`startOk`/`stopOk`/`deleteOk` say whether the corresponding
`Service` call returns or raises `DetectorError`; `scanEnv` feeds `scan`. -/
structure Env where
  profile : Option String
  driverFound : Bool
  createOk : Bool
  startOk : Bool
  stopOk : Bool
  deleteOk : Bool
  scanEnv : ScanEnv
deriving DecidableEq

/-- Observable trace of one `main` run: the messages put on the result
and error channels, the warning logs of the scan, how many times each
`Service` lifecycle call was attempted, whether `scan` was invoked, and
whether the teardown handler logged a failure. -/
structure RunTrace where
  results : List ResultMsg := []
  errors : List Msg := []
  warnLogs : List WarnLog := []
  createAttempts : Nat := 0
  startAttempts : Nat := 0
  scanCalls : Nat := 0
  stopAttempts : Nat := 0
  deleteAttempts : Nat := 0
  teardownErrorLogged : Bool := false
deriving DecidableEq

/-- The `main(queue_results, queue_errors)` orchestrator.  An
`Except.error` result would mean an exception escaping `main`
(abnormal termination); every `try/except DetectorError` of the source is
rendered as a `match` on the sub-step's `Except` value. -/
def main (env : Env) : Except DetectorError RunTrace :=
  -- cfg.get_profile_name(); if not cfg.profile: post UNSUPPORTED_WINDOWS.
  match env.profile with
  | none => Except.ok { errors := [Msg.UNSUPPORTED_WINDOWS] }
  | some _ =>
    -- if not cfg.get_driver_path(): post NO_DRIVER.
    if !env.driverFound then
      Except.ok { errors := [Msg.NO_DRIVER] }
    else
      -- try: service.create(); service.start()
      let startA : Nat := if env.createOk then 1 else 0
      let initR : Except DetectorError Unit :=
        if !env.createOk then Except.error ⟨"create failed"⟩
        else if !env.startOk then Except.error ⟨"start failed"⟩
        else Except.ok ()
      match initR with
      | Except.error _ =>
        -- except DetectorError: post SERVICE_NO_START and return.
        Except.ok { errors := [Msg.SERVICE_NO_START],
                    createAttempts := 1, startAttempts := startA }
      | Except.ok _ =>
        -- try: scan(cfg.service_path, cfg.profile, queue_results)
        let s := scan env.scanEnv
        let scanErrs : List Msg :=
          match s.2.2 with
          | Except.error _ => [Msg.SCAN_FAILED]  -- except DetectorError
          | Except.ok _ => []
        -- try: service.stop(); service.delete()
        -- (delete is reached only when stop did not raise; failures are
        --  only logged by the except branch, nothing is posted)
        let deleteA : Nat := if env.stopOk then 1 else 0
        let tearLogged : Bool := !env.stopOk || (env.stopOk && !env.deleteOk)
        Except.ok { results := s.1, errors := scanErrs, warnLogs := s.2.1,
                    createAttempts := 1, startAttempts := 1, scanCalls := 1,
                    stopAttempts := 1, deleteAttempts := deleteA,
                    teardownErrorLogged := tearLogged }

/-- The trace of a run (total accessor; by `main_never_escapes` below the
`Except.error` branch is unreachable). -/
def runOf (env : Env) : RunTrace :=
  match main env with
  | Except.ok t => t
  | Except.error _ => {}

/-- The spec's propagation policy (§7), written from the spec's words for
the refinement claim about error posting: profile-resolution failure posts
the unsupported-platform message, driver-location failure the no-driver
message, service create/start failure one service-lifecycle message, and a
scan failure one scan-failed message; otherwise nothing is posted. -/
def specGateErrors (env : Env) : List Msg :=
  match env.profile with
  | none => [Msg.UNSUPPORTED_WINDOWS]
  | some _ =>
    if !env.driverFound then [Msg.NO_DRIVER]
    else if !(env.createOk && env.startOk) then [Msg.SERVICE_NO_START]
    else
      match (scan env.scanEnv).2.2 with
      | Except.error _ => [Msg.SCAN_FAILED]
      | Except.ok _ => []

/-! ### Helper lemmas -/

/-- Loop invariant of `scanLoop`: the emitted results carry pairwise
distinct rules, and every emitted result's rule is fresh with respect to
the incoming `matched` list while its pid differs from the scanning
process's pid. -/
lemma scanLoop_mem (sp : Int) (evs : List StreamEvent) :
    ∀ matched : List String,
      ((scanLoop sp evs matched).1.Pairwise fun a b => a.rule ≠ b.rule) ∧
      ∀ m ∈ (scanLoop sp evs matched).1, m.rule ∉ matched ∧ m.pid ≠ sp := by
  induction evs with
  | nil => intro matched; simp [scanLoop]
  | cons e rest ih =>
    intro matched
    match e with
    | StreamEvent.fail m => simp [scanLoop]
    | StreamEvent.item o address hit value =>
      match o with
      | none => simpa [scanLoop] using ih matched
      | some ob =>
        by_cases hname : ob.obj_name = "_EPROCESS"
        · by_cases hself : ob.uniqueProcessId = sp
          · simpa [scanLoop, hname, hself] using ih matched
          · by_cases hmem : hit.rule ∈ matched
            · simpa [scanLoop, hname, hself, hmem] using ih matched
            · have ihm := ih (matched ++ [hit.rule])
              simp only [scanLoop, if_pos hname, if_neg hself, if_neg hmem]
              constructor
              · refine List.Pairwise.cons (fun b hb => ?_) ihm.1
                have hbr := (ihm.2 b hb).1
                simp only [List.mem_append, List.mem_singleton, not_or] at hbr
                exact fun hc => hbr.2 hc.symm
              · intro m hm
                rcases List.mem_cons.mp hm with hm | hm
                · subst hm; exact ⟨hmem, hself⟩
                · have hmm := ihm.2 m hm
                  exact ⟨fun hc => hmm.1 (List.mem_append.mpr (Or.inl hc)), hmm.2⟩
        · simpa [scanLoop, hname] using ih matched

/-- When `scanLoop` completes without raising, the returned verdict is
true exactly when the dedup list ended non-empty, i.e. when the incoming
`matched` list was non-empty or at least one result was emitted. -/
lemma scanLoop_ok (sp : Int) (evs : List StreamEvent) :
    ∀ (matched : List String) (b : Bool),
      (scanLoop sp evs matched).2.2 = Except.ok b →
      (b = true ↔ (matched ≠ [] ∨ (scanLoop sp evs matched).1 ≠ [])) := by
  induction evs with
  | nil =>
    intro matched b h
    simp only [scanLoop, Except.ok.injEq] at h
    subst h
    simp [scanLoop, List.length_pos]
  | cons e rest ih =>
    intro matched b h
    match e with
    | StreamEvent.fail m => simp [scanLoop] at h
    | StreamEvent.item o address hit value =>
      match o with
      | none =>
        simp only [scanLoop] at h ⊢
        exact ih matched b h
      | some ob =>
        by_cases hname : ob.obj_name = "_EPROCESS"
        · by_cases hself : ob.uniqueProcessId = sp
          · simp only [scanLoop, if_pos hname, if_pos hself] at h ⊢
            exact ih matched b h
          · by_cases hmem : hit.rule ∈ matched
            · simp only [scanLoop, if_pos hname, if_neg hself, if_pos hmem] at h ⊢
              exact ih matched b h
            · simp only [scanLoop, if_pos hname, if_neg hself, if_neg hmem] at h ⊢
              have := ih (matched ++ [hit.rule]) b h
              simp only [ne_eq, List.append_eq_nil, List.cons_ne_self,
                and_false, not_false_iff, true_or, iff_true] at this
              simp [this]
        · simp only [scanLoop, if_neg hname] at h ⊢
          exact ih matched b h

/-- The results of `scan` carry pairwise distinct rules and never the
scanning process's own pid. -/
lemma scan_results (e : ScanEnv) :
    ((scan e).1.Pairwise fun a b => a.rule ≠ b.rule) ∧
    ∀ m ∈ (scan e).1, m.pid ≠ e.selfPid := by
  unfold scan
  cases hy : resolveYara e with
  | none => simp
  | some p =>
    have h := scanLoop_mem e.selfPid e.stream []
    exact ⟨h.1, fun m hm => (h.2 m hm).2⟩

/-- `main` never lets an exception escape, and the error channel receives
exactly the messages prescribed by the spec's propagation policy. -/
lemma main_ok_and_errors (env : Env) :
    (main env).isOk = true ∧ (runOf env).errors = specGateErrors env := by
  cases hp : env.profile with
  | none => simp [runOf, main, specGateErrors, hp, Except.isOk, Except.toBool]
  | some p =>
    by_cases hd : env.driverFound
    · by_cases hc : env.createOk
      · by_cases hs : env.startOk
        · cases hscan : (scan env.scanEnv).2.2 with
          | ok b =>
            simp [runOf, main, specGateErrors, hp, hd, hc, hs, hscan,
              Except.isOk, Except.toBool]
          | error err =>
            simp [runOf, main, specGateErrors, hp, hd, hc, hs, hscan,
              Except.isOk, Except.toBool]
        · simp [runOf, main, specGateErrors, hp, hd, hc, hs, Except.isOk, Except.toBool]
      · simp [runOf, main, specGateErrors, hp, hd, hc, Except.isOk, Except.toBool]
    · simp [runOf, main, specGateErrors, hp, hd, Except.isOk, Except.toBool]

/-- The spec's propagation policy never prescribes more than one message. -/
lemma specGateErrors_len (env : Env) : (specGateErrors env).length ≤ 1 := by
  unfold specGateErrors
  cases env.profile with
  | none => simp
  | some p =>
    by_cases hd : env.driverFound
    · by_cases hcs : env.createOk && env.startOk
      · cases hscan : (scan env.scanEnv).2.2 with
        | ok b => simp [hd, hcs, hscan]
        | error err => simp [hd, hcs, hscan]
      · simp [hd, hcs]
    · simp [hd]

/-- The result channel of a full run is either untouched (an early halt)
or exactly what `scan` emitted. -/
lemma runOf_results_cases (env : Env) :
    (runOf env).results = [] ∨ (runOf env).results = (scan env.scanEnv).1 := by
  unfold runOf main
  cases env.profile with
  | none => simp
  | some p =>
    by_cases hd : env.driverFound
    · by_cases hc : env.createOk
      · by_cases hs : env.startOk
        · simp [hd, hc, hs]
        · simp [hd, hc, hs]
      · simp [hd, hc]
    · simp [hd]

/-- Full trace of a run in which profile, driver, create and start all
succeeded: the scan's channel output is kept, a scan failure posts the
scan-failed message, and teardown attempts stop once and delete only when
stop succeeded. -/
lemma runOf_started (env : Env) (hp : env.profile.isSome = true)
    (hd : env.driverFound = true) (hc : env.createOk = true) (hs : env.startOk = true) :
    runOf env =
      { results := (scan env.scanEnv).1,
        errors := match (scan env.scanEnv).2.2 with
                  | Except.error _ => [Msg.SCAN_FAILED]
                  | Except.ok _ => [],
        warnLogs := (scan env.scanEnv).2.1,
        createAttempts := 1, startAttempts := 1, scanCalls := 1,
        stopAttempts := 1,
        deleteAttempts := if env.stopOk then 1 else 0,
        teardownErrorLogged := !env.stopOk || (env.stopOk && !env.deleteOk) } := by
  obtain ⟨p, hp'⟩ := Option.isSome_iff_exists.mp hp
  cases hscan : (scan env.scanEnv).2.2 with
  | ok b => simp [runOf, main, hp', hd, hc, hs, hscan]
  | error err => simp [runOf, main, hp', hd, hc, hs, hscan]

/-- Trace of a run in which `service.start()` raised after a successful
`service.create()`. -/
lemma runOf_startFail (env : Env) (hp : env.profile.isSome = true)
    (hd : env.driverFound = true) (hc : env.createOk = true) (hs : env.startOk = false) :
    runOf env =
      { errors := [Msg.SERVICE_NO_START], createAttempts := 1, startAttempts := 1 } := by
  obtain ⟨p, hp'⟩ := Option.isSome_iff_exists.mp hp
  simp [runOf, main, hp', hd, hc, hs]

/-! ### Claim theorems -/

/-- C5: every failure of a top-level gating step (profile resolution,
driver location, service create/start, scan execution) is caught inside
`main`, converted into exactly the one corresponding error-channel
message, and `main` returns normally: no gating failure escapes as an
uncaught exception.  (`specGateErrors` is the spec's propagation policy
written as a function; all pipeline failures are `DetectorError`, the
exception type every step of this program raises.) -/
theorem c5_gating_failures_caught (env : Env) :
    (main env).isOk = true ∧ (runOf env).errors = specGateErrors env :=
  main_ok_and_errors env

/-- C10: over all runs of `main`, at most one message is ever posted to
the error channel. -/
theorem c10_at_most_one_error (env : Env) : (runOf env).errors.length ≤ 1 := by
  rw [(main_ok_and_errors env).2]
  exact specGateErrors_len env

/-- C3: no message put on the result channel carries the scanning
process's own pid, and a process-context match whose pid equals the
current pid is discarded, producing no channel activity at all. -/
theorem c3_self_exclusion (env : Env) :
    (∀ m ∈ (runOf env).results, m.pid ≠ env.scanEnv.selfPid) ∧
    (∀ (ob : ObjRec) (address : Nat) (hit : Hit) (value : List Nat)
       (rest : List StreamEvent) (matched : List String),
      ob.obj_name = "_EPROCESS" → ob.uniqueProcessId = env.scanEnv.selfPid →
      scanLoop env.scanEnv.selfPid
          (StreamEvent.item (some ob) address hit value :: rest) matched =
        scanLoop env.scanEnv.selfPid rest matched) := by
  constructor
  · rcases runOf_results_cases env with h | h
    · simp [h]
    · rw [h]
      exact (scan_results env.scanEnv).2
  · intro ob address hit value rest matched hname hself
    simp [scanLoop, hname, hself]

/-- Witness for C3 at a concrete run: a match on pid 7 is reported with
pid 7 (≠ 4242, the scanner's pid), and a match on pid 4242 itself is
dropped without touching the channel. -/
theorem c3_self_exclusion_witness :
    (ResultMsg.mk "r1" none none 7 1).pid ≠ (4242 : Int) ∧
    scanLoop 4242
        [StreamEvent.item (some ⟨"_EPROCESS", 4242, 1⟩) 0 ⟨"r2", none, none⟩ []] [] =
      scanLoop 4242 [] [] :=
  ⟨(c3_self_exclusion
      (Env.mk (some "Win7SP1x86") true true true true true
        (ScanEnv.mk true false 4242
          [StreamEvent.item (some ⟨"_EPROCESS", 7, 1⟩) 0 ⟨"r1", none, none⟩ []]))).1
      (ResultMsg.mk "r1" none none 7 1) (by decide),
   (c3_self_exclusion
      (Env.mk (some "Win7SP1x86") true true true true true
        (ScanEnv.mk true false 4242 []))).2
      ⟨"_EPROCESS", 4242, 1⟩ 0 ⟨"r2", none, none⟩ [] [] [] rfl rfl⟩

/-- C2: no two messages put on the result channel of a run share a rule
identifier; and in the concrete scenario where the engine yields two hits
for the same rule on two different pids (neither the scanner's own),
exactly one message is emitted, carrying the first hit's pid, and the
scan's outcome is true. -/
theorem c2_dedup_invariant (env : Env) :
    ((runOf env).results.Pairwise fun a b => a.rule ≠ b.rule) ∧
    (∀ (p1 pp1 p2 pp2 : Int) (a1 a2 : Nat) (r : String)
       (d1 ds1 d2 ds2 : Option String) (v1 v2 : List Nat),
      env.profile.isSome = true → env.driverFound = true →
      env.createOk = true → env.startOk = true →
      env.scanEnv.sigCwd = true →
      env.scanEnv.stream =
        [StreamEvent.item (some ⟨"_EPROCESS", p1, pp1⟩) a1 ⟨r, d1, ds1⟩ v1,
         StreamEvent.item (some ⟨"_EPROCESS", p2, pp2⟩) a2 ⟨r, d2, ds2⟩ v2] →
      p1 ≠ env.scanEnv.selfPid → p2 ≠ env.scanEnv.selfPid → p1 ≠ p2 →
      (runOf env).results = [ResultMsg.mk r d1 ds1 p1 pp1] ∧
      (scan env.scanEnv).2.2 = Except.ok true) := by
  constructor
  · rcases runOf_results_cases env with h | h
    · simp [h]
    · rw [h]
      exact (scan_results env.scanEnv).1
  · intro p1 pp1 p2 pp2 a1 a2 r d1 ds1 d2 ds2 v1 v2
      hp hd hc hs hsig hstream hne1 hne2 hne12
    rw [runOf_started env hp hd hc hs]
    simp [scan, resolveYara, hsig, hstream, scanLoop, hne1, hne2]

/-- Witness for C2 at a concrete run: two hits for rule r1 on pids 7 and
9, scanner pid 4242; one message with pid 7 reaches the channel and the
scan returns true. -/
theorem c2_dedup_witness :
    (runOf (Env.mk (some "Win7SP1x86") true true true true true
        (ScanEnv.mk true false 4242
          [StreamEvent.item (some ⟨"_EPROCESS", 7, 1⟩) 16 ⟨"r1", some "d", none⟩ [65, 66],
           StreamEvent.item (some ⟨"_EPROCESS", 9, 1⟩) 32 ⟨"r1", none, none⟩ [67]]))).results =
      [ResultMsg.mk "r1" (some "d") none 7 1] ∧
    (scan (ScanEnv.mk true false 4242
        [StreamEvent.item (some ⟨"_EPROCESS", 7, 1⟩) 16 ⟨"r1", some "d", none⟩ [65, 66],
         StreamEvent.item (some ⟨"_EPROCESS", 9, 1⟩) 32 ⟨"r1", none, none⟩ [67]])).2.2 =
      Except.ok true :=
  (c2_dedup_invariant (Env.mk (some "Win7SP1x86") true true true true true
      (ScanEnv.mk true false 4242
        [StreamEvent.item (some ⟨"_EPROCESS", 7, 1⟩) 16 ⟨"r1", some "d", none⟩ [65, 66],
         StreamEvent.item (some ⟨"_EPROCESS", 9, 1⟩) 32 ⟨"r1", none, none⟩ [67]]))).2
    7 1 9 1 16 32 "r1" (some "d") none none none [65, 66] [67]
    rfl rfl rfl rfl rfl rfl (by decide) (by decide) (by decide)

/-- C7: when `service.start()` raises after a successful
`service.create()`, exactly one service-lifecycle message is posted, the
scan step is never invoked, and no result message is emitted. -/
theorem c7_start_failure (env : Env) (hp : env.profile.isSome = true)
    (hd : env.driverFound = true) (hc : env.createOk = true) (hs : env.startOk = false) :
    (runOf env).errors = [Msg.SERVICE_NO_START] ∧
    (runOf env).scanCalls = 0 ∧ (runOf env).results = [] ∧
    (runOf env).createAttempts = 1 ∧ (runOf env).startAttempts = 1 := by
  rw [runOf_startFail env hp hd hc hs]
  exact ⟨rfl, rfl, rfl, rfl, rfl⟩

/-- Witness for C7 at a concrete run with a failing start. -/
theorem c7_start_failure_witness :
    (runOf (Env.mk (some "Win7SP1x86") true true false true true
        (ScanEnv.mk true false 0 []))).errors = [Msg.SERVICE_NO_START] ∧
    (runOf (Env.mk (some "Win7SP1x86") true true false true true
        (ScanEnv.mk true false 0 []))).scanCalls = 0 ∧
    (runOf (Env.mk (some "Win7SP1x86") true true false true true
        (ScanEnv.mk true false 0 []))).results = [] ∧
    (runOf (Env.mk (some "Win7SP1x86") true true false true true
        (ScanEnv.mk true false 0 []))).createAttempts = 1 ∧
    (runOf (Env.mk (some "Win7SP1x86") true true false true true
        (ScanEnv.mk true false 0 []))).startAttempts = 1 :=
  c7_start_failure (Env.mk (some "Win7SP1x86") true true false true true
    (ScanEnv.mk true false 0 [])) rfl rfl rfl rfl

/-- C8: a scan that completes returns true exactly when it emitted at
least one result (equivalently, when the dedup list is non-empty), and an
empty match stream yields false with nothing on the channel. -/
theorem c8_outcome_iff_results (e : ScanEnv) (b : Bool)
    (h : (scan e).2.2 = Except.ok b) :
    (b = true ↔ (scan e).1 ≠ []) ∧
    (e.stream = [] → b = false ∧ (scan e).1 = []) := by
  cases hy : resolveYara e with
  | none => simp [scan, hy] at h
  | some p =>
    have hsc : scan e = scanLoop e.selfPid e.stream [] := by simp [scan, hy]
    rw [hsc] at h ⊢
    refine ⟨by simpa using scanLoop_ok e.selfPid e.stream [] b h, fun hstream => ?_⟩
    rw [hstream] at h ⊢
    simp only [scanLoop, Except.ok.injEq] at h ⊢
    exact ⟨h.symm, trivial⟩

/-- Witness for C8 at the empty stream: outcome false, channel empty. -/
theorem c8_outcome_witness :
    (scan (ScanEnv.mk true false 0 [])).1 = [] :=
  ((c8_outcome_iff_results (ScanEnv.mk true false 0 []) false rfl).2 rfl).2

/-- Counterexample for C1: with the signature file absent from both
resolution paths and every other step succeeding, the service IS created
and started (one attempt each) before the failure surfaces, and the
message posted is the scan-failed one — the claimed pre-service halt with
a dedicated resource-missing channel message does not happen. -/
theorem c1_sig_missing_counterexample :
    (runOf (Env.mk (some "Win7SP1x86") true true true true true
        (ScanEnv.mk false false 4242 []))).createAttempts = 1 ∧
    (runOf (Env.mk (some "Win7SP1x86") true true true true true
        (ScanEnv.mk false false 4242 []))).startAttempts = 1 ∧
    (runOf (Env.mk (some "Win7SP1x86") true true true true true
        (ScanEnv.mk false false 4242 []))).errors = [Msg.SCAN_FAILED] := by
  decide

/-- C1 as amended: when the signature file exists at neither resolution
path, `scan` raises before acquiring the image — the match stream is
never consulted, nothing is emitted or logged — and the run posts exactly
one scan-failed message; but service create and start have already
happened, and teardown is still attempted. -/
theorem c1_sig_missing_amended (env : Env)
    (h1 : env.scanEnv.sigCwd = false) (h2 : env.scanEnv.sigResource = false)
    (hp : env.profile.isSome = true) (hd : env.driverFound = true)
    (hc : env.createOk = true) (hs : env.startOk = true) :
    (runOf env).errors = [Msg.SCAN_FAILED] ∧ (runOf env).results = [] ∧
    (runOf env).warnLogs = [] ∧
    (runOf env).createAttempts = 1 ∧ (runOf env).startAttempts = 1 ∧
    (runOf env).stopAttempts = 1 ∧
    (∀ s : List StreamEvent,
      runOf (Env.mk env.profile env.driverFound env.createOk env.startOk
          env.stopOk env.deleteOk (ScanEnv.mk false false env.scanEnv.selfPid s)) =
        runOf env) := by
  have hscan : scan env.scanEnv =
      ([], [], Except.error ⟨"Unable to find a valid Yara signatures file!"⟩) := by
    simp [scan, resolveYara, h1, h2]
  rw [runOf_started env hp hd hc hs]
  refine ⟨by rw [hscan], by rw [hscan], by rw [hscan], rfl, rfl, rfl, fun s => ?_⟩
  rw [runOf_started (Env.mk env.profile env.driverFound env.createOk env.startOk
    env.stopOk env.deleteOk (ScanEnv.mk false false env.scanEnv.selfPid s)) hp hd hc hs]
  simp [scan, resolveYara, h1, h2, hscan]

/-- Witness for C1 at a concrete run, also instantiating the
stream-irrelevance conjunct at a non-empty stream. -/
theorem c1_sig_missing_witness :
    (runOf (Env.mk (some "Win7SP1x86") true true true true true
        (ScanEnv.mk false false 0 []))).errors = [Msg.SCAN_FAILED] ∧
    runOf (Env.mk (some "Win7SP1x86") true true true true true
        (ScanEnv.mk false false 0 [StreamEvent.fail "volatility blew up"])) =
      runOf (Env.mk (some "Win7SP1x86") true true true true true
        (ScanEnv.mk false false 0 [])) :=
  ⟨(c1_sig_missing_amended (Env.mk (some "Win7SP1x86") true true true true true
      (ScanEnv.mk false false 0 [])) rfl rfl rfl rfl rfl rfl).1,
   (c1_sig_missing_amended (Env.mk (some "Win7SP1x86") true true true true true
      (ScanEnv.mk false false 0 [])) rfl rfl rfl rfl rfl rfl).2.2.2.2.2.2
     [StreamEvent.fail "volatility blew up"]⟩

/-- Counterexample for C4: in a run where the service started and the
scan succeeded, a failing `service.stop()` means `service.delete()` is
never attempted (the single `try` block is left at the first raise), so
stop and delete are not both attempted once each. -/
theorem c4_teardown_counterexample :
    (runOf (Env.mk (some "Win7SP1x86") true true true false true
        (ScanEnv.mk true false 0 []))).stopAttempts = 1 ∧
    (runOf (Env.mk (some "Win7SP1x86") true true true false true
        (ScanEnv.mk true false 0 []))).deleteAttempts = 0 ∧
    (runOf (Env.mk (some "Win7SP1x86") true true true false true
        (ScanEnv.mk true false 0 []))).errors = [] ∧
    (runOf (Env.mk (some "Win7SP1x86") true true true false true
        (ScanEnv.mk true false 0 []))).teardownErrorLogged = true := by
  decide

/-- C4 as amended: once the service reached Started, stop is attempted
exactly once and delete exactly once if stop succeeded (not at all when
stop raises); a failure during stop or delete is logged only, and the
teardown outcome never changes the messages posted on either channel. -/
theorem c4_teardown_amended (env : Env) (hp : env.profile.isSome = true)
    (hd : env.driverFound = true) (hc : env.createOk = true) (hs : env.startOk = true) :
    (runOf env).stopAttempts = 1 ∧
    (runOf env).deleteAttempts = (if env.stopOk then 1 else 0) ∧
    ((env.stopOk = false ∨ env.deleteOk = false) →
      (runOf env).teardownErrorLogged = true) ∧
    (∀ s d : Bool,
      (runOf (Env.mk env.profile env.driverFound env.createOk env.startOk
          s d env.scanEnv)).results = (runOf env).results ∧
      (runOf (Env.mk env.profile env.driverFound env.createOk env.startOk
          s d env.scanEnv)).errors = (runOf env).errors) := by
  rw [runOf_started env hp hd hc hs]
  refine ⟨rfl, rfl, fun h => ?_, fun s d => ?_⟩
  · rcases h with h | h <;> simp [h]
  · rw [runOf_started (Env.mk env.profile env.driverFound env.createOk env.startOk
      s d env.scanEnv) hp hd hc hs]
    exact ⟨rfl, rfl⟩

/-- Witness for C4 at a concrete run whose delete fails: stop attempted
once, the failure is logged, and flipping the teardown outcomes leaves
the posted messages unchanged. -/
theorem c4_teardown_witness :
    (runOf (Env.mk (some "Win7SP1x86") true true true true false
        (ScanEnv.mk true false 0 []))).stopAttempts = 1 ∧
    (runOf (Env.mk (some "Win7SP1x86") true true true true false
        (ScanEnv.mk true false 0 []))).teardownErrorLogged = true ∧
    (runOf (Env.mk (some "Win7SP1x86") true true true false true
        (ScanEnv.mk true false 0 []))).errors =
      (runOf (Env.mk (some "Win7SP1x86") true true true true false
        (ScanEnv.mk true false 0 []))).errors :=
  ⟨(c4_teardown_amended (Env.mk (some "Win7SP1x86") true true true true false
      (ScanEnv.mk true false 0 [])) rfl rfl rfl rfl).1,
   (c4_teardown_amended (Env.mk (some "Win7SP1x86") true true true true false
      (ScanEnv.mk true false 0 [])) rfl rfl rfl rfl).2.2.1 (Or.inr rfl),
   ((c4_teardown_amended (Env.mk (some "Win7SP1x86") true true true true false
      (ScanEnv.mk true false 0 [])) rfl rfl rfl rfl).2.2.2 false true).2⟩

/-- Counterexample for C6: the scan raises after emitting two results
and, because `service.stop()` also raises, `service.delete()` is never
attempted — so the claim's "stop and delete are still attempted" fails,
while both results do remain on the channel and one scan-failed message
is posted. -/
theorem c6_scan_midfail_counterexample :
    (runOf (Env.mk (some "Win7SP1x86") true true true false true
        (ScanEnv.mk true false 4242
          [StreamEvent.item (some ⟨"_EPROCESS", 7, 1⟩) 0 ⟨"r1", none, none⟩ [],
           StreamEvent.item (some ⟨"_EPROCESS", 9, 1⟩) 0 ⟨"r2", none, none⟩ [],
           StreamEvent.fail "winpmem read error"]))).results =
      [ResultMsg.mk "r1" none none 7 1, ResultMsg.mk "r2" none none 9 1] ∧
    (runOf (Env.mk (some "Win7SP1x86") true true true false true
        (ScanEnv.mk true false 4242
          [StreamEvent.item (some ⟨"_EPROCESS", 7, 1⟩) 0 ⟨"r1", none, none⟩ [],
           StreamEvent.item (some ⟨"_EPROCESS", 9, 1⟩) 0 ⟨"r2", none, none⟩ [],
           StreamEvent.fail "winpmem read error"]))).errors = [Msg.SCAN_FAILED] ∧
    (runOf (Env.mk (some "Win7SP1x86") true true true false true
        (ScanEnv.mk true false 4242
          [StreamEvent.item (some ⟨"_EPROCESS", 7, 1⟩) 0 ⟨"r1", none, none⟩ [],
           StreamEvent.item (some ⟨"_EPROCESS", 9, 1⟩) 0 ⟨"r2", none, none⟩ [],
           StreamEvent.fail "winpmem read error"]))).stopAttempts = 1 ∧
    (runOf (Env.mk (some "Win7SP1x86") true true true false true
        (ScanEnv.mk true false 4242
          [StreamEvent.item (some ⟨"_EPROCESS", 7, 1⟩) 0 ⟨"r1", none, none⟩ [],
           StreamEvent.item (some ⟨"_EPROCESS", 9, 1⟩) 0 ⟨"r2", none, none⟩ [],
           StreamEvent.fail "winpmem read error"]))).deleteAttempts = 0 := by
  decide

/-- C6 as amended: if the scan raises mid-iteration after emitting two
results, both results remain on the result channel, exactly one
scan-failed message is posted, and teardown is still entered: stop is
attempted once, and delete is attempted when stop succeeds. -/
theorem c6_scan_midfail_amended (env : Env) (ob1 ob2 : ObjRec) (a1 a2 : Nat)
    (ht1 ht2 : Hit) (v1 v2 : List Nat) (m : String) (rest : List StreamEvent)
    (hp : env.profile.isSome = true) (hd : env.driverFound = true)
    (hc : env.createOk = true) (hs : env.startOk = true)
    (hsig : env.scanEnv.sigCwd = true)
    (hstream : env.scanEnv.stream =
      StreamEvent.item (some ob1) a1 ht1 v1 ::
        StreamEvent.item (some ob2) a2 ht2 v2 :: StreamEvent.fail m :: rest)
    (ho1 : ob1.obj_name = "_EPROCESS") (ho2 : ob2.obj_name = "_EPROCESS")
    (hne1 : ob1.uniqueProcessId ≠ env.scanEnv.selfPid)
    (hne2 : ob2.uniqueProcessId ≠ env.scanEnv.selfPid)
    (hr : ht1.rule ≠ ht2.rule) :
    (runOf env).results =
      [ResultMsg.mk ht1.rule ht1.metaDetection ht1.metaDescription
         ob1.uniqueProcessId ob1.inheritedFromUniqueProcessId,
       ResultMsg.mk ht2.rule ht2.metaDetection ht2.metaDescription
         ob2.uniqueProcessId ob2.inheritedFromUniqueProcessId] ∧
    (runOf env).errors = [Msg.SCAN_FAILED] ∧
    (runOf env).stopAttempts = 1 ∧
    (runOf env).deleteAttempts = (if env.stopOk then 1 else 0) := by
  rw [runOf_started env hp hd hc hs]
  simp [scan, resolveYara, hsig, hstream, scanLoop, ho1, ho2, hne1, hne2,
    hr, Ne.symm hr]

/-- Witness for C6 at a concrete run (stop succeeding): both results kept,
one scan-failed message, stop and delete attempted. -/
theorem c6_scan_midfail_witness :
    (runOf (Env.mk (some "Win7SP1x86") true true true true true
        (ScanEnv.mk true false 4242
          [StreamEvent.item (some ⟨"_EPROCESS", 7, 1⟩) 0 ⟨"r1", none, none⟩ [],
           StreamEvent.item (some ⟨"_EPROCESS", 9, 1⟩) 0 ⟨"r2", none, none⟩ [],
           StreamEvent.fail "winpmem read error"]))).results =
      [ResultMsg.mk "r1" none none 7 1, ResultMsg.mk "r2" none none 9 1] ∧
    (runOf (Env.mk (some "Win7SP1x86") true true true true true
        (ScanEnv.mk true false 4242
          [StreamEvent.item (some ⟨"_EPROCESS", 7, 1⟩) 0 ⟨"r1", none, none⟩ [],
           StreamEvent.item (some ⟨"_EPROCESS", 9, 1⟩) 0 ⟨"r2", none, none⟩ [],
           StreamEvent.fail "winpmem read error"]))).errors = [Msg.SCAN_FAILED] ∧
    (runOf (Env.mk (some "Win7SP1x86") true true true true true
        (ScanEnv.mk true false 4242
          [StreamEvent.item (some ⟨"_EPROCESS", 7, 1⟩) 0 ⟨"r1", none, none⟩ [],
           StreamEvent.item (some ⟨"_EPROCESS", 9, 1⟩) 0 ⟨"r2", none, none⟩ [],
           StreamEvent.fail "winpmem read error"]))).stopAttempts = 1 ∧
    (runOf (Env.mk (some "Win7SP1x86") true true true true true
        (ScanEnv.mk true false 4242
          [StreamEvent.item (some ⟨"_EPROCESS", 7, 1⟩) 0 ⟨"r1", none, none⟩ [],
           StreamEvent.item (some ⟨"_EPROCESS", 9, 1⟩) 0 ⟨"r2", none, none⟩ [],
           StreamEvent.fail "winpmem read error"]))).deleteAttempts = 1 :=
  c6_scan_midfail_amended (Env.mk (some "Win7SP1x86") true true true true true
      (ScanEnv.mk true false 4242
        [StreamEvent.item (some ⟨"_EPROCESS", 7, 1⟩) 0 ⟨"r1", none, none⟩ [],
         StreamEvent.item (some ⟨"_EPROCESS", 9, 1⟩) 0 ⟨"r2", none, none⟩ [],
         StreamEvent.fail "winpmem read error"]))
    ⟨"_EPROCESS", 7, 1⟩ ⟨"_EPROCESS", 9, 1⟩ 0 0
    ⟨"r1", none, none⟩ ⟨"r2", none, none⟩ [] [] "winpmem read error" []
    rfl rfl rfl rfl rfl rfl rfl rfl (by decide) (by decide) (by decide)

/-- Counterexample for C9: two runs whose single match differs only in
its address and matched bytes put identical messages on the result
channel (while their warning logs differ), so the channel message carries
neither the source address nor the rendered evidence window. -/
theorem c9_evidence_counterexample :
    (scan (ScanEnv.mk true false 4242
        [StreamEvent.item (some ⟨"_EPROCESS", 7, 1⟩) 16
          ⟨"r1", some "d", some "desc"⟩ [65]])).1 =
      (scan (ScanEnv.mk true false 4242
        [StreamEvent.item (some ⟨"_EPROCESS", 7, 1⟩) 32
          ⟨"r1", some "d", some "desc"⟩ [66]])).1 ∧
    (scan (ScanEnv.mk true false 4242
        [StreamEvent.item (some ⟨"_EPROCESS", 7, 1⟩) 16
          ⟨"r1", some "d", some "desc"⟩ [65]])).1.length = 1 ∧
    (scan (ScanEnv.mk true false 4242
        [StreamEvent.item (some ⟨"_EPROCESS", 7, 1⟩) 16
          ⟨"r1", some "d", some "desc"⟩ [65]])).2.1 ≠
      (scan (ScanEnv.mk true false 4242
        [StreamEvent.item (some ⟨"_EPROCESS", 7, 1⟩) 32
          ⟨"r1", some "d", some "desc"⟩ [66]])).2.1 := by
  decide

/-- C9 as amended: every reported detection hands the result channel a
message carrying the rule identifier, detection category, description,
pid and ppid of the match; the source address and the evidence window
rendered as paired hex-byte / printable-character lines go into the
warning-level log record written for that same match, not into the
channel message. -/
theorem c9_emission_amended (sp : Int) (ob : ObjRec) (address : Nat) (hit : Hit)
    (value : List Nat) (rest : List StreamEvent) (matched : List String)
    (hname : ob.obj_name = "_EPROCESS") (hself : ob.uniqueProcessId ≠ sp)
    (hmem : hit.rule ∉ matched) :
    scanLoop sp (StreamEvent.item (some ob) address hit value :: rest) matched =
      (ResultMsg.mk hit.rule hit.metaDetection hit.metaDescription
          ob.uniqueProcessId ob.inheritedFromUniqueProcessId ::
        (scanLoop sp rest (matched ++ [hit.rule])).1,
       WarnLog.mk hit.rule ob.uniqueProcessId ob.inheritedFromUniqueProcessId
          address (renderRuleData value) ::
        (scanLoop sp rest (matched ++ [hit.rule])).2.1,
       (scanLoop sp rest (matched ++ [hit.rule])).2.2) := by
  simp [scanLoop, hname, hself, hmem]

/-- Witness for C9 at a concrete emission: one message with the dict
fields, one warning log with the address and rendered bytes. -/
theorem c9_emission_witness :
    scanLoop 4242
        [StreamEvent.item (some ⟨"_EPROCESS", 7, 1⟩) 16 ⟨"r1", none, none⟩ [65]] [] =
      ([ResultMsg.mk "r1" none none 7 1],
       [WarnLog.mk "r1" 7 1 16 (renderRuleData [65])], Except.ok true) := by
  rw [c9_emission_amended 4242 ⟨"_EPROCESS", 7, 1⟩ 16 ⟨"r1", none, none⟩ [65] [] []
    rfl (by decide) (by simp)]
  simp [scanLoop]

end Detekt
